import Mathlib

/-!
Shallow embedding of the access-control engine of `windows_app_lock/main.py`.

Modelling conventions:
* absolute timestamps (`datetime.now()`) are seconds as `Nat`;
* times of day (`datetime.time`, `"HH:MM"` strings) are minutes since
  midnight as `Nat` (so comparison of `time` objects is `Nat` comparison);
* Python dicts keyed by executable path are association lists without
  duplicate keys; `dictGet`, `dictInsert`, `dictDelete` mirror `d[k]` /
  `d.get(k)`, `d[k] = v` and `del d[k]`;
* the result of `verify_password` (a SHA-256 digest comparison against the
  stored hash) is carried as a `Bool`; an empty password field is `none`.
-/

namespace AppLock

/-- Python `d.get(k)` / `k in d` on a dict represented as an association
list: the first binding of the key, if any. -/
def dictGet {α : Type} (d : List (String × α)) (k : String) : Option α :=
  match d with
  | [] => none
  | (k', v) :: rest => if k' = k then some v else dictGet rest k

/-- Python `d[k] = v` on a dict: replace the existing binding in place,
or append a fresh binding at the end. -/
def dictInsert {α : Type} (d : List (String × α)) (k : String) (v : α) :
    List (String × α) :=
  match d with
  | [] => [(k, v)]
  | (k', v') :: rest =>
    if k' = k then (k, v) :: rest else (k', v') :: dictInsert rest k v

/-- Python `del d[k]` on a dict: remove the binding of `k`. -/
def dictDelete {α : Type} (d : List (String × α)) (k : String) :
    List (String × α) :=
  match d with
  | [] => []
  | (k', v) :: rest =>
    if k' = k then dictDelete rest k else (k', v) :: dictDelete rest k

/-- One entry of `self.blocked_apps` (built in `add_blocked_app`): the
fields of the per-app config dict.  `start_time`/`end_time` are the parsed
`"HH:MM"` values in minutes since midnight (`.get` defaults `'00:00'` and
`'23:59'`, i.e. `0` and `1439`, are applied by the callers that read them). -/
structure BlockRule where
  name : String
  path : String
  time_restricted : Bool
  start_time : Nat
  end_time : Nat
  blocked : Bool
deriving DecidableEq, Repr

/-- The pure time-window test inlined in `is_time_restricted`
(main.py lines 1113-1116): inclusive `[start, end]` when `start <= end`,
wrap-around `now >= start or now <= end` otherwise. -/
def isWithinWindow (now start_time end_time : Nat) : Bool :=
  if start_time ≤ end_time then
    decide (start_time ≤ now) && decide (now ≤ end_time)
  else
    decide (now ≥ start_time) || decide (now ≤ end_time)

/-- Embeds `AppLockManager.is_time_restricted`: `False` when the rule is not
time-restricted, otherwise the window test at the current time of day. -/
def is_time_restricted (app_config : BlockRule) (nowTod : Nat) : Bool :=
  if app_config.time_restricted then
    isWithinWindow nowTod app_config.start_time app_config.end_time
  else
    false

/-- The temporary-access store `self.temporary_access : {exe_path: expiry}`. -/
def TempStore : Type := List (String × Nat)

/-- Embeds `AppLockManager.has_temporary_access`: returns the boolean answer and
the store after the call (the call deletes the entry when
`datetime.now() > expiry_time`). -/
def has_temporary_access (store : TempStore) (exe_path : String) (now : Nat) :
    Bool × TempStore :=
  match dictGet store exe_path with
  | none => (false, store)
  | some expiry_time =>
    if now > expiry_time then (false, dictDelete store exe_path)
    else (true, store)

/-- Embeds `AppLockManager.grant_temporary_access` with the default duration:
`temp_access_duration // 60 = 5` minutes, expiry `now + 5 * 60` seconds. -/
def grant_temporary_access (store : TempStore) (exe_path : String) (now : Nat) :
    TempStore :=
  dictInsert store exe_path (now + 5 * 60)

/-- Embeds the bound of `AppLockManager.prompt_for_app_access`: it waits in a poll loop of 0.1 s
ticks, at most this many (`timeout_count < 150`, the "15 second timeout"). -/
def promptPollLimit : Nat := 150

/-- Embeds `AppLockManager.prompt_for_app_access`, abstracted over the dialog
outcome: `arrival = some (t, b)` means the dialog stores decision `b` at
poll tick `t`; `none` means no decision is ever stored.  Returns the
number of 0.1 s ticks the scheduler thread waited, and the decision it
returns (`result if result is not None else False`). -/
def prompt_for_app_access (arrival : Option (Nat × Bool)) : Nat × Bool :=
  match arrival with
  | none => (promptPollLimit, false)
  | some (t, b) =>
    (min t promptPollLimit, if t ≤ promptPollLimit then b else false)

/-- What the monitoring loop does to one running process in one tick. -/
inductive MonitorAction where
  /-- the process is left running untouched (not governed-blocked right
  now, or covered by a temporary grant) -/
  | allowed
  /-- the path is not in `blocked_apps` at all -/
  | notGoverned
  /-- password correct: temporary grant stored, process resumed -/
  | resumed
  /-- password wrong / denied / timeout: process terminated -/
  | terminated
deriving DecidableEq, Repr

/-- The body of `AppLockManager.monitor_processes` for a single process
with executable `exe_path` (main.py lines 1127-1166), with the external
suspend/resume/terminate calls succeeding and the dialog outcome given by
`arrival` as in `prompt_for_app_access`.  `now` is the absolute time in
seconds, `nowTod` the time of day in minutes. -/
def monitor_processes (blocked_apps : List (String × BlockRule))
    (store : TempStore) (now nowTod : Nat) (exe_path : String)
    (arrival : Option (Nat × Bool)) : MonitorAction × TempStore :=
  match dictGet blocked_apps exe_path with
  | none => (.notGoverned, store)
  | some app_config =>
    let should_block :=
      if app_config.time_restricted then
        app_config.blocked && is_time_restricted app_config nowTod
      else
        app_config.blocked
    if should_block then
      let r := has_temporary_access store exe_path now
      if r.1 then (.allowed, r.2)
      else
        if (prompt_for_app_access arrival).2 then
          (.resumed, grant_temporary_access r.2 exe_path now)
        else
          (.terminated, r.2)
    else
      (.allowed, store)

/-- One record of `self.access_log` as built by `log_access_attempt`. -/
structure LogEntry where
  timestamp : Nat
  app_name : String
  app_path : String
  success : Bool
  details : String
deriving DecidableEq, Repr

/-- The entry `log_access_attempt` constructs from an app config. -/
def mkLogEntry (now : Nat) (app_config : BlockRule) (success : Bool)
    (details : String) : LogEntry :=
  { timestamp := now
    app_name := app_config.name
    app_path := app_config.path
    success := success
    details := details }

/-- Embeds `AppLockManager.log_access_attempt`: append the entry, then keep only
the last 100 entries (`self.access_log[-100:]`) when the length exceeds 100. -/
def log_access_attempt (access_log : List LogEntry) (now : Nat)
    (app_config : BlockRule) (success : Bool) (details : String) :
    List LogEntry :=
  let log := access_log ++ [mkLogEntry now app_config success details]
  if log.length > 100 then log.drop (log.length - 100) else log

/-- State of the modal dialog created by `show_app_access_dialog`. -/
structure DialogState where
  /-- the dict `dialog_result['result']`, initially `False` -/
  result : Bool
  /-- whether `dialog.destroy()` has run; no widget callback can fire any more -/
  closed : Bool
  /-- whether `self.root.after(2000, dialog.destroy)` has been scheduled by the
  third failed attempt and has not fired yet -/
  destroy_scheduled : Bool
deriving DecidableEq, Repr

/-- The manager state one challenge session touches: the dialog, the
persistent `self.access_attempts` counters and `self.access_log`. -/
structure SessionState where
  dialog : DialogState
  access_attempts : List (String × Nat)
  access_log : List LogEntry
deriving DecidableEq, Repr

/-- A fresh dialog: `dialog_result = {'result': False}`, open, no
delayed destroy pending. -/
def freshDialog : DialogState :=
  { result := false, closed := false, destroy_scheduled := false }

/-- The events that can reach the dialog of `show_app_access_dialog`. -/
inductive SessionEvent where
  /-- the Grant button or the Return key runs `grant_access`;
  `none` = empty password field, `some ok` = `verify_password` result -/
  | submit (password : Option Bool)
  /-- the Deny button runs `deny_access` -/
  | denyClick
  /-- the callback `dialog.after(30000, deny_access)`: the 30 s auto-deny fires -/
  | autoDeny
  /-- the `self.root.after(2000, dialog.destroy)` callback fires -/
  | destroyTimer
deriving DecidableEq, Repr

/-- One event of a challenge session for `app_config`, following
`grant_access` / `deny_access` in `show_app_access_dialog`
(main.py lines 1354-1409).  Once the dialog is destroyed no callback can
fire, so events on a closed dialog are no-ops. -/
def sessionStep (app_config : BlockRule) (now : Nat) (st : SessionState)
    (ev : SessionEvent) : SessionState :=
  if st.dialog.closed then st else
  match ev with
  | .submit none => st
  | .submit (some ok) =>
    if ok then
      { st with
        dialog := { st.dialog with result := true, closed := true }
        access_log := log_access_attempt st.access_log now app_config true
          "Password correct - Access granted" }
    else
      let app_path := app_config.path
      let attempts := (dictGet st.access_attempts app_path).getD 0 + 1
      let counters := dictInsert st.access_attempts app_path attempts
      let log := log_access_attempt st.access_log now app_config false
        ("Invalid password - Attempt " ++ toString attempts ++ "/3")
      if attempts ≥ 3 then
        { st with
          access_attempts := counters
          access_log := log_access_attempt log now app_config false
            "Too many failed attempts - Access denied"
          dialog := { st.dialog with destroy_scheduled := true } }
      else
        { st with access_attempts := counters, access_log := log }
  | .denyClick =>
    { st with dialog := { st.dialog with result := false, closed := true } }
  | .autoDeny =>
    { st with dialog := { st.dialog with result := false, closed := true } }
  | .destroyTimer =>
    if st.dialog.destroy_scheduled then
      { st with dialog := { st.dialog with closed := true } }
    else
      st

/-- Run a challenge session over a list of events. -/
def runSession (app_config : BlockRule) (now : Nat) (st : SessionState)
    (evs : List SessionEvent) : SessionState :=
  evs.foldl (sessionStep app_config now) st

/-- State of `LoginWindow`: `self.login_attempts`, `self.locked_until`
and `self.authenticated` (`max_attempts = 3`, `lockout_time = 30`). -/
structure LoginState where
  login_attempts : Nat
  locked_until : Option Nat
  authenticated : Bool
deriving DecidableEq, Repr

/-- Embeds `LoginWindow.is_locked_out`: reports the lockout and, when an expired
lockout is seen, resets `locked_until` and `login_attempts` in place. -/
def is_locked_out (st : LoginState) (now : Nat) : Bool × LoginState :=
  match st.locked_until with
  | some until_t =>
    if now < until_t then (true, st)
    else (false, { st with locked_until := none, login_attempts := 0 })
  | none => (false, st)

/-- Embeds `LoginWindow.login`: reject while locked out; empty password is a
no-op; correct password authenticates and resets the counter; a wrong
password increments it and the third consecutive failure locks the window
for 30 seconds.  `password = none` models an empty field, `some ok` a
non-empty field with `verify_password` result `ok`. -/
def login (st : LoginState) (now : Nat) (password : Option Bool) :
    LoginState :=
  let r := is_locked_out st now
  if r.1 then r.2
  else
    let st := r.2
    match password with
    | none => st
    | some ok =>
      if ok then
        { st with authenticated := true, login_attempts := 0 }
      else
        let attempts := st.login_attempts + 1
        if attempts ≥ 3 then
          { st with login_attempts := attempts
                    locked_until := some (now + 30) }
        else
          { st with login_attempts := attempts }

/-- The persisted configuration schema written by `save_config` and read
back by `load_config`: `{'blocked_apps': ..., 'password_hash': ...}`.
The JSON text itself is the persistence collaborator's concern; the
schema-level value is what both sides agree on.  `Option` models
`config.get(key, default)` on a possibly missing key. -/
structure AppConfigFile where
  blocked_apps : Option (List (String × BlockRule))
  password_hash : Option String

/-- Embeds `AppLockManager.save_config`: dump both fields. -/
def save_config (blocked_apps : List (String × BlockRule))
    (password_hash : String) : AppConfigFile :=
  { blocked_apps := some blocked_apps, password_hash := some password_hash }

/-- Embeds `AppLockManager.load_config` (success path): read `blocked_apps` with
default `{}` and `password_hash` with the previous hash as default. -/
def load_config (config : AppConfigFile) (old_password_hash : String) :
    List (String × BlockRule) × String :=
  (config.blocked_apps.getD [], config.password_hash.getD old_password_hash)

/-- A concrete rule used by witnesses and counterexamples. -/
def sampleRule : BlockRule :=
  { name := "Notepad"
    path := "C:/Windows/notepad.exe"
    time_restricted := false
    start_time := 0
    end_time := 1439
    blocked := true }

/-- A fresh challenge-session state: new dialog, empty counters and log. -/
def freshSession : SessionState :=
  { dialog := freshDialog, access_attempts := [], access_log := [] }


/-- The event trace refuting C4: three wrong passwords, then a correct
one entered before the delayed `dialog.destroy` fires. -/
def c4_events : List SessionEvent :=
  [.submit (some false), .submit (some false), .submit (some false),
   .submit (some true)]

/-- The state after a first challenge session for `sampleRule`: two wrong
submissions, then an explicit deny closes the dialog. -/
def c7_firstSession : SessionState :=
  runSession sampleRule 0 freshSession
    [.submit (some false), .submit (some false), .denyClick]

/-- The start of a second challenge session for the same path: a fresh
dialog, with the manager's `access_attempts` and `access_log` carried
over — nothing in the source ever clears `access_attempts`. -/
def c7_secondSessionStart : SessionState :=
  { dialog := freshDialog
    access_attempts := c7_firstSession.access_attempts
    access_log := c7_firstSession.access_log }

/-- Deleting a key removes every binding of that key and leaves the
lookup of every other key unchanged. -/
theorem dictGet_dictDelete {α : Type} (d : List (String × α)) (k q : String) :
    dictGet (dictDelete d k) q = if k = q then none else dictGet d q := by
  induction d with
  | nil => simp [dictDelete, dictGet]
  | cons hd tl ih =>
    obtain ⟨k', v⟩ := hd
    by_cases h1 : k' = k
    · subst h1
      have hdel : dictDelete ((k', v) :: tl) k' = dictDelete tl k' := by
        simp [dictDelete]
      rw [hdel, ih]
      by_cases h2 : k' = q
      · simp [h2]
      · simp [dictGet, h2]
    · have hdel : dictDelete ((k', v) :: tl) k = (k', v) :: dictDelete tl k := by
        simp [dictDelete, h1]
      rw [hdel]
      by_cases h2 : k' = q
      · subst h2
        have hkq : ¬ k = k' := fun hc => h1 hc.symm
        simp [dictGet, hkq]
      · simp [dictGet, h2, ih]

/-- A binding that survives `dictDelete` was already present. -/
theorem dictGet_dictDelete_subset {α : Type} (d : List (String × α))
    (k q : String) (x : α) (h : dictGet (dictDelete d k) q = some x) :
    dictGet d q = some x := by
  rw [dictGet_dictDelete] at h
  by_cases hkq : k = q
  · simp [hkq] at h
  · simpa [hkq] using h

/-- C3: `isWithinWindow` is the inclusive interval `[start, end]` when
`start <= end` and the midnight-wrapping union `[start, 24:00) ∪ [00:00, end]`
when `start > end`, and it decides the spec's four sample points
(12:00, 09:00-17:00 ↦ true; 20:00, 09:00-17:00 ↦ false;
23:30, 22:00-06:00 ↦ true; 12:00, 22:00-06:00 ↦ false). -/
theorem c3_isWithinWindow_spec :
    (∀ now start_time end_time : Nat, now < 1440 →
      (isWithinWindow now start_time end_time = true ↔
        (if start_time ≤ end_time then
          start_time ≤ now ∧ now ≤ end_time
        else
          (start_time ≤ now ∧ now < 1440) ∨ now ≤ end_time))) ∧
    isWithinWindow 720 540 1020 = true ∧
    isWithinWindow 1200 540 1020 = false ∧
    isWithinWindow 1410 1320 360 = true ∧
    isWithinWindow 720 1320 360 = false := by
  refine ⟨?_, by decide, by decide, by decide, by decide⟩
  intro now s e h
  unfold isWithinWindow
  split
  · simp
  · simp
    omega

/-- Witness for C3 at the concrete point 12:00 in the 09:00-17:00 window. -/
theorem c3_witness : isWithinWindow 720 540 1020 = true :=
  (c3_isWithinWindow_spec.1 720 540 1020 (by decide)).mpr (by decide)

/-- C2 as stated is false: a grant whose expiry equals the current time is
still reported valid (`has_temporary_access` only expires on the strict
`now > expiry_time`), refuting the claimed `now < expiresAt` criterion at
the concrete store `[("p", 5)]` queried at time 5. -/
theorem c2_counterexample :
    ¬ ((has_temporary_access [("p", 5)] "p" 5).1 = true ↔
        ∃ e, dictGet [("p", 5)] "p" = some e ∧ 5 < e) := by
  intro h
  obtain ⟨e, he, hlt⟩ := h.mp rfl
  simp [dictGet] at he
  omega

/-- C2 amended: the validity answer of `has_temporary_access` is true iff
a grant exists for the path and `now ≤ expiresAt` (a grant expiring exactly
now is still valid; strict expiry only at `now > expiresAt`). -/
theorem c2_amended_valid_iff (store : TempStore) (exe_path : String)
    (now : Nat) :
    (has_temporary_access store exe_path now).1 = true ↔
      ∃ e, dictGet store exe_path = some e ∧ now ≤ e := by
  unfold has_temporary_access
  cases h : dictGet store exe_path with
  | none => simp [h]
  | some e =>
    by_cases hlt : now > e
    · simp [h, hlt]
    · simp [h, hlt]
      omega

/-- C10: the validity query is the only mutation point — one call removes
the entry of the queried path exactly when that grant has expired
(`expiry < now`), after which the store no longer contains the path; with
an unexpired grant or no grant at all the store is returned unchanged. -/
theorem c10_has_temporary_access_frame (store : TempStore)
    (exe_path : String) (now : Nat) :
    (∀ e, dictGet store exe_path = some e → e < now →
      (has_temporary_access store exe_path now).2 = dictDelete store exe_path ∧
      dictGet (has_temporary_access store exe_path now).2 exe_path = none) ∧
    (∀ e, dictGet store exe_path = some e → now ≤ e →
      (has_temporary_access store exe_path now).2 = store) ∧
    (dictGet store exe_path = none →
      (has_temporary_access store exe_path now).2 = store) := by
  refine ⟨?_, ?_, ?_⟩
  · intro e he hlt
    have h2 : (has_temporary_access store exe_path now).2 =
        dictDelete store exe_path := by
      unfold has_temporary_access
      simp [he, hlt]
    refine ⟨h2, ?_⟩
    rw [h2, dictGet_dictDelete]
    simp
  · intro e he hle
    unfold has_temporary_access
    simp [he, show ¬ now > e from by omega]
  · intro he
    unfold has_temporary_access
    simp [he]

/-- Witness for C10: querying the store `[("p", 3)]` at time 10 deletes
the expired entry for `"p"`. -/
theorem c10_witness :
    (has_temporary_access [("p", 3)] "p" 10).2 = dictDelete [("p", 3)] "p" ∧
    dictGet (has_temporary_access [("p", 3)] "p" 10).2 "p" = none :=
  (c10_has_temporary_access_frame [("p", 3)] "p" 10).1 3 rfl (by decide)

/-- Zeta-reduced equation of `log_access_attempt`. -/
theorem log_access_attempt_eq (access_log : List LogEntry) (now : Nat)
    (app_config : BlockRule) (success : Bool) (details : String) :
    log_access_attempt access_log now app_config success details =
      if (access_log ++ [mkLogEntry now app_config success details]).length > 100
      then List.drop
        ((access_log ++ [mkLogEntry now app_config success details]).length - 100)
        (access_log ++ [mkLogEntry now app_config success details])
      else access_log ++ [mkLogEntry now app_config success details] := rfl

/-- The validity query returns either the untouched store or the store
with the queried path removed. -/
theorem has_temporary_access_snd_cases (store : TempStore)
    (exe_path : String) (now : Nat) :
    (has_temporary_access store exe_path now).2 = store ∨
    (has_temporary_access store exe_path now).2 = dictDelete store exe_path := by
  unfold has_temporary_access
  cases hg : dictGet store exe_path with
  | none => left; rfl
  | some e =>
    by_cases hlt : now > e
    · right; simp [hlt]
    · left; simp [hlt]

/-- When the credential decision is Denied (or defaulted), a monitoring
step never resumes the process and only ever shrinks the store. -/
theorem monitor_denied_frame (blocked_apps : List (String × BlockRule))
    (store : TempStore) (now nowTod : Nat) (exe_path : String)
    (arrival : Option (Nat × Bool))
    (hp : (prompt_for_app_access arrival).2 = false) :
    (monitor_processes blocked_apps store now nowTod exe_path arrival).1 ≠
      .resumed ∧
    ((monitor_processes blocked_apps store now nowTod exe_path arrival).2 =
        store ∨
     (monitor_processes blocked_apps store now nowTod exe_path arrival).2 =
        dictDelete store exe_path) := by
  unfold monitor_processes
  cases h : dictGet blocked_apps exe_path with
  | none => simp
  | some rule =>
    simp only [hp]
    constructor
    · repeat' split
      all_goals simp_all
    · repeat' split
      all_goals simp_all [has_temporary_access_snd_cases store exe_path now]

/-- C1: whenever the path is governed and a temporary grant that is still
valid (current time before its expiry) exists, the monitoring tick leaves
the process running — `allowed`, never suspended, challenged or
terminated — and leaves the store untouched, whatever the rule's
`blocked` flag, time restriction and window are and whatever the dialog
would answer. -/
theorem c1_valid_grant_allows
    (blocked_apps : List (String × BlockRule)) (store : TempStore)
    (now nowTod : Nat) (exe_path : String) (arrival : Option (Nat × Bool))
    (rule : BlockRule) (e : Nat)
    (hrule : dictGet blocked_apps exe_path = some rule)
    (hgrant : dictGet store exe_path = some e)
    (hvalid : now < e) :
    (monitor_processes blocked_apps store now nowTod exe_path arrival).1 =
      .allowed ∧
    (monitor_processes blocked_apps store now nowTod exe_path arrival).2 =
      store := by
  have hacc : has_temporary_access store exe_path now = (true, store) := by
    unfold has_temporary_access
    simp [hgrant, show ¬ now > e from by omega]
  unfold monitor_processes
  simp [hrule, hacc]

/-- Witness for C1: a rule with `blocked := true`, which would otherwise
challenge the process, still yields `allowed` under a live grant. -/
theorem c1_witness :
    (monitor_processes [("C:/Windows/notepad.exe", sampleRule)]
      [("C:/Windows/notepad.exe", 100)] 50 720 "C:/Windows/notepad.exe"
      none).1 = .allowed ∧
    (monitor_processes [("C:/Windows/notepad.exe", sampleRule)]
      [("C:/Windows/notepad.exe", 100)] 50 720 "C:/Windows/notepad.exe"
      none).2 = [("C:/Windows/notepad.exe", 100)] :=
  c1_valid_grant_allows [("C:/Windows/notepad.exe", sampleRule)]
    [("C:/Windows/notepad.exe", 100)] 50 720 "C:/Windows/notepad.exe"
    none sampleRule 100 rfl rfl (by decide)

/-- C6: the login lockout machine — the third consecutive wrong password
locks until `now + 30`; while locked and before that instant every check
(any password) returns the state unchanged, consuming no attempt; every
check at or after the deadline behaves exactly as the same check from the
auto-reset state `Unlocked(0)` (`locked_until := none`,
`login_attempts := 0`), so in particular a correct password then
authenticates with `login_attempts = 0`. -/
theorem c6_login_lockout :
    (∀ (st : LoginState) (now : Nat),
      st.locked_until = none → st.login_attempts = 2 →
      (login st now (some false)).locked_until = some (now + 30) ∧
      (login st now (some false)).login_attempts = 3) ∧
    (∀ (st : LoginState) (now until_t : Nat) (password : Option Bool),
      st.locked_until = some until_t → now < until_t →
      login st now password = st) ∧
    (∀ (st : LoginState) (now until_t : Nat),
      st.locked_until = some until_t → until_t ≤ now →
      (login st now (some true)).authenticated = true ∧
      (login st now (some true)).login_attempts = 0 ∧
      (login st now (some true)).locked_until = none) ∧
    (∀ (st : LoginState) (now until_t : Nat) (password : Option Bool),
      st.locked_until = some until_t → until_t ≤ now →
      login st now password =
        login { st with locked_until := none, login_attempts := 0 } now
          password) := by
  refine ⟨?_, ?_, ?_, ?_⟩
  · intro st now h1 h2
    unfold login is_locked_out
    simp [h1, h2]
  · intro st now until_t password h1 h2
    unfold login is_locked_out
    simp [h1, h2]
  · intro st now until_t h1 h2
    unfold login is_locked_out
    simp [h1, show ¬ now < until_t from by omega]
  · intro st now until_t password h1 h2
    unfold login is_locked_out
    simp [h1, show ¬ now < until_t from by omega]

/-- Witness for C6: lock at the third failure from attempts 2; a correct
password at time 10 during the lockout until 30 changes nothing; a correct
password at time 40 authenticates; a wrong password at time 40 behaves
exactly as from the reset state `Unlocked(0)`. -/
theorem c6_witness :
    (login ⟨2, none, false⟩ 0 (some false)).locked_until = some 30 ∧
    login ⟨3, some 30, false⟩ 10 (some true) = ⟨3, some 30, false⟩ ∧
    (login ⟨3, some 30, false⟩ 40 (some true)).authenticated = true ∧
    login ⟨3, some 30, false⟩ 40 (some false) =
      login ⟨0, none, false⟩ 40 (some false) :=
  ⟨(c6_login_lockout.1 ⟨2, none, false⟩ 0 rfl rfl).1,
   c6_login_lockout.2.1 ⟨3, some 30, false⟩ 10 30 (some true) rfl (by decide),
   (c6_login_lockout.2.2.1 ⟨3, some 30, false⟩ 40 30 rfl (by decide)).1,
   c6_login_lockout.2.2.2 ⟨3, some 30, false⟩ 40 30 (some false) rfl
     (by decide)⟩

/-- C8: after any append the audit log holds at most 100 entries, and an
append onto a log of exactly 100 entries drops precisely the oldest entry,
keeping the rest in order followed by the new entry. -/
theorem c8_audit_log_bounded :
    ∀ (access_log : List LogEntry) (now : Nat) (app_config : BlockRule)
      (success : Bool) (details : String),
      (log_access_attempt access_log now app_config success details).length
        ≤ 100 ∧
      (access_log.length = 100 →
        log_access_attempt access_log now app_config success details =
          access_log.tail ++ [mkLogEntry now app_config success details]) := by
  intro log now cfg success details
  rw [log_access_attempt_eq]
  constructor
  · split
    · rw [List.length_drop]
      omega
    · rename_i hle
      simp only [List.length_append, List.length_singleton] at hle ⊢
      omega
  · intro h100
    have hlen : (log ++ [mkLogEntry now cfg success details]).length = 101 := by
      simp [h100]
    rw [if_pos (by omega), hlen]
    have hdrop : (log ++ [mkLogEntry now cfg success details]).drop 1 =
        log.drop 1 ++ [mkLogEntry now cfg success details] :=
      List.drop_append_of_le_length (by omega)
    have h1 : (101 : Nat) - 100 = 1 := rfl
    rw [h1, hdrop, List.drop_one]

/-- Witness for C8: appending to a log of exactly 100 entries evicts the
oldest one. -/
theorem c8_witness :
    log_access_attempt (List.replicate 100 (mkLogEntry 0 sampleRule true "boot"))
      1 sampleRule false "evict" =
    (List.replicate 100 (mkLogEntry 0 sampleRule true "boot")).tail ++
      [mkLogEntry 1 sampleRule false "evict"] :=
  (c8_audit_log_bounded
    (List.replicate 100 (mkLogEntry 0 sampleRule true "boot"))
    1 sampleRule false "evict").2 (by simp)

/-- C9: saving the rule set through the configuration schema and loading
it back reproduces the very same rule set, so the monitoring decision is
identical for every path, every absolute time, every time of day, every
store and every dialog outcome. -/
theorem c9_config_roundtrip :
    ∀ (blocked_apps : List (String × BlockRule))
      (password_hash old_hash : String) (store : TempStore)
      (now nowTod : Nat) (exe_path : String) (arrival : Option (Nat × Bool)),
      (load_config (save_config blocked_apps password_hash) old_hash).1 =
        blocked_apps ∧
      monitor_processes
        (load_config (save_config blocked_apps password_hash) old_hash).1
        store now nowTod exe_path arrival =
      monitor_processes blocked_apps store now nowTod exe_path arrival := by
  intro blocked_apps password_hash old_hash store now nowTod exe_path arrival
  exact ⟨rfl, rfl⟩

/-- C5 as stated is false: with no decision ever arriving, the scheduler
thread's wait loop ends after 150 poll ticks of 0.1 s — 15 seconds — not
after the claimed 30 seconds (300 ticks). -/
theorem c5_counterexample :
    (prompt_for_app_access none).1 = 150 ∧
    ¬ (prompt_for_app_access none).1 = 300 := by
  decide

/-- C5 amended: when no credential decision arrives, the scheduler blocks
for exactly `promptPollLimit = 150` ticks of 0.1 s (15 seconds, not 30 —
the 30 s constant is the dialog's separate auto-deny timer), an arriving
decision unblocks it after `min t 150` ticks, and the defaulted decision
is Denied: a process whose rule currently requires blocking and that has
no temporary access is terminated, the result is never `resumed`, and no
temporary grant is created — every grant in the resulting store was
already present. -/
theorem c5_amended_timeout_denies
    (arrival : Option (Nat × Bool))
    (blocked_apps : List (String × BlockRule)) (store : TempStore)
    (now nowTod : Nat) (exe_path : String)
    (hnone : arrival = none) :
    prompt_for_app_access arrival = (promptPollLimit, false) ∧
    (∀ t b, (prompt_for_app_access (some (t, b))).1 = min t promptPollLimit) ∧
    (∀ rule, dictGet blocked_apps exe_path = some rule →
      (if rule.time_restricted then
        rule.blocked && is_time_restricted rule nowTod
       else rule.blocked) = true →
      (has_temporary_access store exe_path now).1 = false →
      (monitor_processes blocked_apps store now nowTod exe_path arrival).1 =
        .terminated) ∧
    (monitor_processes blocked_apps store now nowTod exe_path arrival).1 ≠
      .resumed ∧
    (∀ q x,
      dictGet
        (monitor_processes blocked_apps store now nowTod exe_path arrival).2
        q = some x →
      dictGet store q = some x) := by
  subst hnone
  have hp : (prompt_for_app_access none).2 = false := rfl
  have hframe := monitor_denied_frame blocked_apps store now nowTod exe_path
    none hp
  refine ⟨rfl, fun t b => rfl, ?_, hframe.1, ?_⟩
  · intro rule hr hsb hacc
    unfold monitor_processes
    simp [hr, hsb, hacc, prompt_for_app_access]
  · intro q x hx
    cases hframe.2 with
    | inl hs => rw [hs] at hx; exact hx
    | inr hs =>
      rw [hs] at hx
      exact dictGet_dictDelete_subset store exe_path q x hx

/-- Witness for C5: with no arriving decision the prompt returns the
150-tick timeout with decision Denied, and the sample blocked app with
no temporary access is terminated. -/
theorem c5_witness :
    prompt_for_app_access none = (promptPollLimit, false) ∧
    (monitor_processes [("C:/Windows/notepad.exe", sampleRule)] [] 0 0
      "C:/Windows/notepad.exe" none).1 = .terminated :=
  ⟨(c5_amended_timeout_denies none [("C:/Windows/notepad.exe", sampleRule)]
      [] 0 0 "C:/Windows/notepad.exe" rfl).1,
   (c5_amended_timeout_denies none [("C:/Windows/notepad.exe", sampleRule)]
      [] 0 0 "C:/Windows/notepad.exe" rfl).2.2.1 sampleRule rfl rfl rfl⟩

/-- C4 fails on the code: in a fresh challenge session the third
consecutive wrong password does not terminate the session — it only
schedules the dialog's destruction 2 seconds later
(`self.root.after(2000, dialog.destroy)`), the dialog staying open — and
a correct password submitted inside that window is still accepted, the
dialog closing with result Granted. -/
theorem c4_third_failure_not_final :
    (runSession sampleRule 0 freshSession
      [.submit (some false), .submit (some false),
       .submit (some false)]).dialog.closed = false ∧
    (runSession sampleRule 0 freshSession
      [.submit (some false), .submit (some false),
       .submit (some false)]).dialog.destroy_scheduled = true ∧
    (runSession sampleRule 0 freshSession c4_events).dialog.result = true ∧
    (runSession sampleRule 0 freshSession c4_events).dialog.closed = true := by
  exact ⟨rfl, rfl, rfl, rfl⟩

/-- C7 fails on the code: after a first session for `sampleRule` with two
failed attempts, a new session for the same path starts with the
failed-attempt counter at 2, not 0 — so its very first wrong submission
already reaches the 3-attempt limit and schedules termination. -/
theorem c7_counter_carries_over :
    dictGet c7_secondSessionStart.access_attempts sampleRule.path = some 2 ∧
    dictGet c7_secondSessionStart.access_attempts sampleRule.path ≠ some 0 ∧
    (sessionStep sampleRule 1 c7_secondSessionStart
      (.submit (some false))).dialog.destroy_scheduled = true := by
  exact ⟨rfl, by decide, rfl⟩

end AppLock
